import Mathlib

/-
Verification of the pylibtl1 TL1 client against its design specification.

Python strings are modelled as lists of characters (`Str`), Python integers
as `Int`, and raised exceptions as `none` / explicit error constructors of
the modelled result types.  Each modelled function carries a comment naming
the Python definition it embeds.
-/

namespace Pylibtl1

/-- Python strings are modelled as lists of characters. -/
abbrev Str := List Char

/-- Python `s.split(sep, 1)` for a one-character separator, used in the
unpacking context `a, b = s.split(sep, 1)`: `some (before, after)` at the
first occurrence of `sep`, `none` when `sep` does not occur (Python raises
`ValueError` at the unpacking). -/
def splitCharOnce (sep : Char) : Str → Option (Str × Str)
  | [] => none
  | c :: cs =>
    if c = sep then some ([], cs)
    else
      match splitCharOnce sep cs with
      | none => none
      | some (a, b) => some (c :: a, b)

/-- Python `s.split(sep)` (full split) for a one-character separator;
`"".split(sep) = [""]`, empty fields are kept. -/
def splitCharAll (sep : Char) : Str → List Str
  | [] => [[]]
  | c :: cs =>
    if c = sep then [] :: splitCharAll sep cs
    else (c :: (splitCharAll sep cs).headD []) :: (splitCharAll sep cs).tail

/-- Python `s.split(rn, 1)` for the two-character separator `r :: n`
(used with `"\r\n"`), in an unpacking context: `some (before, after)` at
the first occurrence, `none` when the separator is absent. -/
def splitPairOnce (r n : Char) : Str → Option (Str × Str)
  | [] => none
  | [_] => none
  | c :: d :: rest =>
    if c = r ∧ d = n then some ([], rest)
    else
      match splitPairOnce r n (d :: rest) with
      | none => none
      | some (a, b) => some (c :: a, b)

/-- Python `s.split(rn)` (full split) for the two-character separator
`r :: n`. -/
def splitPairAll (r n : Char) : Str → List Str
  | [] => [[]]
  | [c] => [[c]]
  | c :: d :: rest =>
    if c = r ∧ d = n then [] :: splitPairAll r n rest
    else
      (c :: (splitPairAll r n (d :: rest)).headD []) ::
        (splitPairAll r n (d :: rest)).tail

/-- Whether the string contains the two-character sequence `"\r\n"`. -/
def hasCRLF (s : Str) : Bool := (splitPairOnce '\r' '\n' s).isSome

/-- Python `sep.join(parts)` for string lists. -/
def joinWith (sep : Str) : List Str → Str
  | [] => []
  | [l] => l
  | l :: ls => l ++ sep ++ joinWith sep ls

/-- Characters removed by Python `str.strip()` with no argument
(ASCII whitespace). -/
def isPySpace (c : Char) : Bool :=
  c = ' ' ∨ c = '\t' ∨ c = '\n' ∨ c = '\r' ∨ c = '\x0b' ∨ c = '\x0c'

/-- Python `s.strip()`. -/
def pyStrip (s : Str) : Str :=
  (((s.dropWhile isPySpace).reverse).dropWhile isPySpace).reverse

/-- Numeric value of a list of decimal digits. -/
def digitsToNat (s : Str) : Nat :=
  s.foldl (fun acc c => acc * 10 + (c.toNat - '0'.toNat)) 0

/-- Modelled from the Python built-in `int(str)`: strips whitespace, accepts
an optional sign followed by at least one decimal digit (digit-group
underscores, accepted by the built-in, are not modelled). `none` models the
`ValueError` raised on any other input. -/
def pyInt (s : Str) : Option Int :=
  match pyStrip s with
  | '+' :: ds =>
    if ds ≠ [] ∧ ds.all Char.isDigit then some (digitsToNat ds) else none
  | '-' :: ds =>
    if ds ≠ [] ∧ ds.all Char.isDigit then some (-(digitsToNat ds : Int)) else none
  | ds =>
    if ds ≠ [] ∧ ds.all Char.isDigit then some (digitsToNat ds) else none

/-- Insert-or-update for association lists, keeping first-insertion order and
overwriting the value at an existing key: the behaviour of Python `dict`
assignment. -/
def upsert {α β : Type} [DecidableEq α] : List (α × β) → α → β → List (α × β)
  | [], k, v => [(k, v)]
  | (k0, v0) :: rest, k, v =>
    if k0 = k then (k0, v) :: rest else (k0, v0) :: upsert rest k v

/-- Python `dict(pairs)` as an ordered association list: keys in first
occurrence order, each carrying its last assigned value. -/
def pyDict {α β : Type} [DecidableEq α] (ps : List (α × β)) : List (α × β) :=
  ps.foldl (fun d kv => upsert d kv.1 kv.2) []

/-- Leap year rule of the proleptic Gregorian calendar used by
`datetime.date`. -/
def isLeap (y : Nat) : Bool := y % 4 = 0 ∧ (y % 100 ≠ 0 ∨ y % 400 = 0)

/-- Days in a month for `datetime.date` validation. -/
def daysInMonth (y m : Nat) : Nat :=
  if m = 2 then (if isLeap y then 29 else 28)
  else if m = 4 ∨ m = 6 ∨ m = 9 ∨ m = 11 then 30
  else 31

/-- Value of a two-digit field. -/
def twoDigits (a b : Char) : Nat := (a.toNat - '0'.toNat) * 10 + (b.toNat - '0'.toNat)

/-- Modelled from the Python standard library `datetime.datetime.fromisoformat`
called by `tl1.base.parse_response`: accepts `YYYY-MM-DD` optionally followed
by a one-character separator and `HH:MM:SS`, with in-range date and time
fields.  Fractional seconds and timezone offsets, which the library also
accepts, are not modelled.  `false` models the `ValueError` raised on
invalid input. -/
def isoDatetimeValid (s : Str) : Bool :=
  match s with
  | [y1, y2, y3, y4, '-', m1, m2, '-', d1, d2] =>
    ([y1, y2, y3, y4, m1, m2, d1, d2].all Char.isDigit) ∧
    (let y := digitsToNat [y1, y2, y3, y4]
     let m := twoDigits m1 m2
     let d := twoDigits d1 d2
     1 ≤ y ∧ 1 ≤ m ∧ m ≤ 12 ∧ 1 ≤ d ∧ d ≤ daysInMonth y m)
  | [y1, y2, y3, y4, '-', m1, m2, '-', d1, d2, _sep,
     h1, h2, ':', n1, n2, ':', s1, s2] =>
    ([y1, y2, y3, y4, m1, m2, d1, d2, h1, h2, n1, n2, s1, s2].all Char.isDigit) ∧
    (let y := digitsToNat [y1, y2, y3, y4]
     let m := twoDigits m1 m2
     let d := twoDigits d1 d2
     1 ≤ y ∧ 1 ≤ m ∧ m ≤ 12 ∧ 1 ≤ d ∧ d ≤ daysInMonth y m ∧
     twoDigits h1 h2 ≤ 23 ∧ twoDigits n1 n2 ≤ 59 ∧ twoDigits s1 s2 ≤ 59)
  | _ => false

/-- `tl1.constants.Terminator`. -/
inductive Terminator
  | CONTINUE
  | STOP
  | ACK
deriving DecidableEq, Repr

/-- Wire character of each terminator (the enum member values). -/
def Terminator.toChar : Terminator → Char
  | .CONTINUE => '>'
  | .STOP => ';'
  | .ACK => '<'

/-- Python `Terminator(c)`: enum lookup by value; `none` models the
`ValueError` on a character that is not a terminator token. -/
def Terminator.ofChar (c : Char) : Option Terminator :=
  if c = '>' then some .CONTINUE
  else if c = ';' then some .STOP
  else if c = '<' then some .ACK
  else none

/-- `tl1.base.ResponseHeader`; the datetime produced by
`Datetime.fromisoformat` is modelled by its source text. -/
structure ResponseHeader where
  source_id : Str
  dt : Str
deriving DecidableEq, Repr

/-- `tl1.base.ResponseId` as filled in by `parse_response` (the status is
stored as the raw status-code string). -/
structure ResponseId where
  type : Str
  ctag : Str
  status : Str
deriving DecidableEq, Repr

/-- `tl1.base.AutonomousIdentifier` as filled in by `parse_response`. -/
structure AutonomousIdentifier where
  code : Str
  atag : Str
  clause : List Str
deriving DecidableEq, Repr

/-- `tl1.base.AcknowledgmentMessage` as filled in by `parse_response`. -/
structure AcknowledgmentMessage where
  code : Str
  ctag : Str
  terminator : Terminator
deriving DecidableEq, Repr

/-- `tl1.base.Response` as filled in by `parse_response`. -/
structure Response where
  header : ResponseHeader
  identifier : ResponseId
  text : Str
  terminator : Terminator
deriving DecidableEq, Repr

/-- `tl1.base.AutonomousMessage` as filled in by `parse_response`. -/
structure AutonomousMessage where
  header : ResponseHeader
  identifier : AutonomousIdentifier
  text : Str
  terminator : Terminator
deriving DecidableEq, Repr

/-- Outcome of `tl1.base.parse_response`: `noMessage` is the `None` return,
`err` models any escaping Python exception (`ValueError` from unpacking or
enum lookup, `IndexError` from indexing an empty string, `ValueError` from
`fromisoformat`). -/
inductive ParseResult
  | noMessage
  | ack (m : AcknowledgmentMessage)
  | response (m : Response)
  | autonomous (m : AutonomousMessage)
  | err
deriving DecidableEq, Repr

/-- Whether the result is a synchronous `Response`. -/
def ParseResult.isResponseMsg : ParseResult → Bool
  | .response _ => true
  | _ => false

/-- The leading control sequence `"\r\n\n"` required of every TL1 message. -/
def crlfLf : Str := ['\r', '\n', '\n']

/-- `tl1.base.parse_response` with the default vendor profile
(`VendorTL1Default`, whose three constructors are the base message classes)
and no modifiers (the `**modifiers` keyword arguments are accepted and
dropped by every base constructor).  The translation follows the source
line by line; every raised exception is collapsed to `ParseResult.err`. -/
def parse_response (text : Str) : ParseResult :=
  -- if text[:3] != '\r\n\n': return None
  if text.take 3 ≠ crlfLf then .noMessage
  else
    match text.getLast? with
    | none => .err  -- unreachable: the preamble check guarantees length ≥ 3
    | some last =>
      -- if text[-1] == Terminator.ACK.value
      if last = '<' then
        -- code, ctag = text[6:].split(' ', 1); ctag = ctag[:-1]
        match splitCharOnce ' ' (text.drop 6) with
        | none => .err
        | some (code, ctag) =>
          match Terminator.ofChar last with
          | none => .err  -- unreachable: last = '<'
          | some t => .ack ⟨code, ctag.dropLast, t⟩
      else
        -- header_txt, identifier_txt, text = text[6:].split('\r\n', 2)
        match splitPairOnce '\r' '\n' (text.drop 6) with
        | none => .err
        | some (header_txt, rest) =>
          match splitPairOnce '\r' '\n' rest with
          | none => .err
          | some (identifier_txt, body) =>
            -- sid, dt_txt = header_txt.split(' ', 1)
            match splitCharOnce ' ' header_txt with
            | none => .err
            | some (sid, dt_txt) =>
              -- header = ResponseHeader(sid, Datetime.fromisoformat(dt_txt))
              if isoDatetimeValid dt_txt then
                match identifier_txt.head? with
                | none => .err  -- identifier_txt[0] on an empty line
                | some i0 =>
                  if i0 = 'M' then
                    -- res_type, _, ctag, status = identifier_txt.split(' ')
                    match splitCharAll ' ' identifier_txt with
                    | [res_type, _gap, ctag, status] =>
                      -- terminator = text[-1]; text = text[:-1]
                      match body.getLast? with
                      | none => .err
                      | some tc =>
                        match Terminator.ofChar tc with
                        | none => .err
                        | some term =>
                          .response ⟨⟨sid, dt_txt⟩, ⟨res_type, ctag, status⟩,
                            body.dropLast, term⟩
                    | _ => .err
                  else
                    -- code, atag, clause = identifier_txt.split(' ', 2)
                    match splitCharOnce ' ' identifier_txt with
                    | none => .err
                    | some (code, rest1) =>
                      match splitCharOnce ' ' rest1 with
                      | none => .err
                      | some (atag, clause_txt) =>
                        match body.getLast? with
                        | none => .err
                        | some tc =>
                          match Terminator.ofChar tc with
                          | none => .err
                          | some term =>
                            .autonomous ⟨⟨sid, dt_txt⟩,
                              ⟨code, atag, splitCharAll ' ' clause_txt⟩,
                              body.dropLast, term⟩
              else .err

example :
    parse_response ("\r\n\n      OK CTAG<".toList) =
      .ack ⟨[], "  OK CTAG".toList, .ACK⟩ := by decide

example :
    parse_response ("\r\n\n   OK CTAG<".toList) =
      .ack ⟨"OK".toList, "CTAG".toList, .ACK⟩ := by decide

/-! Auxiliary list lemmas for the split and join operations. -/

theorem getLast?_concat_local (xs : Str) (c : Char) :
    (xs ++ [c]).getLast? = some c := by
  induction xs with
  | nil => rfl
  | cons x xs ih =>
    rw [List.cons_append, List.getLast?_cons]
    simp [ih]

theorem dropLast_concat_local (xs : Str) (c : Char) :
    (xs ++ [c]).dropLast = xs := by
  induction xs with
  | nil => rfl
  | cons x xs ih =>
    cases xs with
    | nil => rfl
    | cons y ys => simp [List.dropLast]

theorem drop_len_append (xs ys : Str) (k : Nat) (h : xs.length = k) :
    (xs ++ ys).drop k = ys := by
  subst h
  exact List.drop_left xs ys

theorem splitCharOnce_append (sep : Char) :
    ∀ (a rest : Str), sep ∉ a →
      splitCharOnce sep (a ++ sep :: rest) = some (a, rest)
  | [], rest, _ => by simp [splitCharOnce]
  | c :: a', rest, h => by
    have hc : ¬(c = sep) := fun he => h (he ▸ List.mem_cons_self c a')
    have ih := splitCharOnce_append sep a' rest (fun hm => h (List.mem_cons_of_mem _ hm))
    simp [splitCharOnce, hc, ih]

theorem splitCharAll_no_sep (sep : Char) :
    ∀ (a : Str), sep ∉ a → splitCharAll sep a = [a]
  | [], _ => rfl
  | c :: a', h => by
    have hc : ¬(c = sep) := fun he => h (he ▸ List.mem_cons_self c a')
    have ih := splitCharAll_no_sep sep a' (fun hm => h (List.mem_cons_of_mem _ hm))
    simp [splitCharAll, hc, ih]

theorem splitCharAll_append (sep : Char) :
    ∀ (a rest : Str), sep ∉ a →
      splitCharAll sep (a ++ sep :: rest) = a :: splitCharAll sep rest
  | [], rest, _ => by simp [splitCharAll]
  | c :: a', rest, h => by
    have hc : ¬(c = sep) := fun he => h (he ▸ List.mem_cons_self c a')
    have ih := splitCharAll_append sep a' rest (fun hm => h (List.mem_cons_of_mem _ hm))
    simp [splitCharAll, hc, ih]

theorem splitCharAll_joinWith (sep : Char) :
    ∀ (parts : List Str), parts ≠ [] → (∀ p ∈ parts, sep ∉ p) →
      splitCharAll sep (joinWith [sep] parts) = parts
  | [], h, _ => absurd rfl h
  | [p], _, hall => by
    simpa [joinWith] using splitCharAll_no_sep sep p (hall p (by simp))
  | p :: q :: ps, _, hall => by
    have ih := splitCharAll_joinWith sep (q :: ps) (by simp)
      (fun x hx => hall x (List.mem_cons_of_mem _ hx))
    have hj : joinWith [sep] (p :: q :: ps) = p ++ sep :: joinWith [sep] (q :: ps) := by
      simp [joinWith]
    rw [hj, splitCharAll_append sep p _ (hall p (by simp)), ih]

theorem splitPairOnce_cons_none {r n c d : Char} {a' : Str}
    (h : splitPairOnce r n (c :: d :: a') = none) :
    ¬(c = r ∧ d = n) ∧ splitPairOnce r n (d :: a') = none := by
  by_cases hcd : c = r ∧ d = n
  · rw [splitPairOnce, if_pos hcd] at h
    exact absurd h (by simp)
  · refine ⟨hcd, ?_⟩
    rw [splitPairOnce, if_neg hcd] at h
    cases he : splitPairOnce r n (d :: a') with
    | none => rfl
    | some v =>
      rw [he] at h
      exact absurd h (by simp)

theorem splitPairOnce_append (r n : Char) (hrn : r ≠ n) :
    ∀ (a rest : Str), splitPairOnce r n a = none →
      splitPairOnce r n (a ++ r :: n :: rest) = some (a, rest)
  | [], rest, _ => by simp [splitPairOnce]
  | [c], rest, _ => by
    have hc : ¬(c = r ∧ r = n) := fun hp => hrn hp.2
    simp [splitPairOnce, hc]
  | c :: d :: a', rest, h => by
    obtain ⟨h1, h2⟩ := splitPairOnce_cons_none h
    have ih := splitPairOnce_append r n hrn (d :: a') rest h2
    simp only [List.cons_append] at ih ⊢
    rw [splitPairOnce, if_neg h1, ih]

theorem splitPairAll_no (r n : Char) :
    ∀ (a : Str), splitPairOnce r n a = none → splitPairAll r n a = [a]
  | [], _ => rfl
  | [_], _ => rfl
  | c :: d :: a', h => by
    obtain ⟨h1, h2⟩ := splitPairOnce_cons_none h
    have ih := splitPairAll_no r n (d :: a') h2
    simp [splitPairAll, h1, ih]

theorem splitPairAll_append (r n : Char) (hrn : r ≠ n) :
    ∀ (a rest : Str), splitPairOnce r n a = none →
      splitPairAll r n (a ++ r :: n :: rest) = a :: splitPairAll r n rest
  | [], rest, _ => by simp [splitPairAll]
  | [c], rest, _ => by
    have hc : ¬(c = r ∧ r = n) := fun hp => hrn hp.2
    simp [splitPairAll, hc]
  | c :: d :: a', rest, h => by
    obtain ⟨h1, h2⟩ := splitPairOnce_cons_none h
    have ih := splitPairAll_append r n hrn (d :: a') rest h2
    simp only [List.cons_append] at ih ⊢
    rw [splitPairAll, if_neg h1, ih]
    rfl

theorem splitPairAll_joinWith (r n : Char) (hrn : r ≠ n) :
    ∀ (lines : List Str), lines ≠ [] →
      (∀ l ∈ lines, splitPairOnce r n l = none) →
      splitPairAll r n (joinWith [r, n] lines) = lines
  | [], h, _ => absurd rfl h
  | [l], _, hall => by
    simpa [joinWith] using splitPairAll_no r n l (hall l (by simp))
  | l :: q :: ls, _, hall => by
    have ih := splitPairAll_joinWith r n hrn (q :: ls) (by simp)
      (fun x hx => hall x (List.mem_cons_of_mem _ hx))
    have hj : joinWith [r, n] (l :: q :: ls) =
        l ++ r :: n :: joinWith [r, n] (q :: ls) := by
      simp [joinWith]
    rw [hj, splitPairAll_append r n hrn l _ (hall l (by simp)), ih]

theorem hasCRLF_none {s : Str} (h : hasCRLF s = false) :
    splitPairOnce '\r' '\n' s = none := by
  cases he : splitPairOnce '\r' '\n' s with
  | none => rfl
  | some v =>
    rw [hasCRLF, he] at h
    exact absurd h (by simp)

theorem getLast?_append_of :
    ∀ (l₁ l₂ : Str) (c : Char), l₂.getLast? = some c →
      (l₁ ++ l₂).getLast? = some c
  | [], _, _, h => h
  | x :: xs, l₂, c, h => by
    rw [List.cons_append, List.getLast?_cons]
    simp [getLast?_append_of xs l₂ c h]

/-! Well-formed message buffers, as accepted by `parse_response`:
the three-character control sequence, three further stripped padding
characters, then the message proper. -/

/-- A well-formed acknowledgment buffer:
`"\r\n\n" ++ pad ++ code ++ " " ++ ctag ++ "<"`. -/
def mkAckBuf (pad code ctag : Str) : Str :=
  crlfLf ++ (pad ++ (code ++ (' ' :: (ctag ++ ['<']))))

/-- A well-formed non-acknowledgment buffer: preamble, header line, CRLF,
identifier line, CRLF, body text, terminator character. -/
def mkMsgBuf (pad headerLine idLine body : Str) (t : Terminator) : Str :=
  crlfLf ++ (pad ++ (headerLine ++
    ('\r' :: '\n' :: (idLine ++ ('\r' :: '\n' :: (body ++ [t.toChar]))))))

theorem ofChar_toChar (t : Terminator) : Terminator.ofChar t.toChar = some t := by
  cases t <;> rfl

theorem toChar_ne_ack {t : Terminator} (h : t ≠ Terminator.ACK) :
    ¬(t.toChar = '<') := by
  cases t with
  | CONTINUE => decide
  | STOP => decide
  | ACK => exact absurd rfl h

theorem parse_wf_ack (pad code ctag : Str) (hp : pad.length = 3)
    (hc : ' ' ∉ code) :
    parse_response (mkAckBuf pad code ctag) =
      .ack ⟨code, ctag, Terminator.ACK⟩ := by
  have htake : (mkAckBuf pad code ctag).take 3 = crlfLf := rfl
  have hlen : (crlfLf ++ pad).length = 6 := by simp [crlfLf, hp]
  have hdrop : (mkAckBuf pad code ctag).drop 6 = code ++ ' ' :: (ctag ++ ['<']) := by
    unfold mkAckBuf
    rw [← List.append_assoc]
    exact drop_len_append _ _ _ hlen
  have hlast : (mkAckBuf pad code ctag).getLast? = some '<' := by
    unfold mkAckBuf
    exact getLast?_append_of crlfLf _ _ (getLast?_append_of pad _ _
      (getLast?_append_of code _ _ (getLast?_append_of [' '] _ _
        (getLast?_concat_local ctag '<'))))
  have hsplit : splitCharOnce ' ' (code ++ ' ' :: (ctag ++ ['<'])) =
      some (code, ctag ++ ['<']) := splitCharOnce_append ' ' code _ hc
  simp only [parse_response, htake, hlast, hdrop, hsplit, ne_eq]
  simp [Terminator.ofChar, dropLast_concat_local]

theorem parse_wf_response (pad sid dt mid ctag status body : Str)
    (t : Terminator) (hp : pad.length = 3) (hsid : ' ' ∉ sid)
    (hiso : isoDatetimeValid dt = true)
    (hh : hasCRLF (sid ++ ' ' :: dt) = false)
    (hi : hasCRLF ('M' :: ' ' :: (mid ++ ' ' :: (ctag ++ ' ' :: status))) = false)
    (hmid : ' ' ∉ mid) (hct : ' ' ∉ ctag) (hst : ' ' ∉ status)
    (hT : t ≠ Terminator.ACK) :
    parse_response (mkMsgBuf pad (sid ++ ' ' :: dt)
        ('M' :: ' ' :: (mid ++ ' ' :: (ctag ++ ' ' :: status))) body t) =
      .response ⟨⟨sid, dt⟩, ⟨['M'], ctag, status⟩, body, t⟩ := by
  set idLine : Str := 'M' :: ' ' :: (mid ++ ' ' :: (ctag ++ ' ' :: status)) with hidl
  set hl : Str := sid ++ ' ' :: dt with hhl
  have htake : (mkMsgBuf pad hl idLine body t).take 3 = crlfLf := rfl
  have hlen : (crlfLf ++ pad).length = 6 := by simp [crlfLf, hp]
  have hdrop : (mkMsgBuf pad hl idLine body t).drop 6 =
      hl ++ '\r' :: '\n' :: (idLine ++ '\r' :: '\n' :: (body ++ [t.toChar])) := by
    unfold mkMsgBuf
    rw [← List.append_assoc]
    exact drop_len_append _ _ _ hlen
  have hlast : (mkMsgBuf pad hl idLine body t).getLast? = some t.toChar := by
    unfold mkMsgBuf
    exact getLast?_append_of crlfLf _ _ (getLast?_append_of pad _ _
      (getLast?_append_of hl _ _ (getLast?_append_of ['\r', '\n'] _ _
        (getLast?_append_of idLine _ _ (getLast?_append_of ['\r', '\n'] _ _
          (getLast?_concat_local body t.toChar))))))
  have hlt := toChar_ne_ack hT
  have hsp1 : splitPairOnce '\r' '\n'
      (hl ++ '\r' :: '\n' :: (idLine ++ '\r' :: '\n' :: (body ++ [t.toChar]))) =
      some (hl, idLine ++ '\r' :: '\n' :: (body ++ [t.toChar])) :=
    splitPairOnce_append '\r' '\n' (by decide) hl _ (hasCRLF_none hh)
  have hsp2 : splitPairOnce '\r' '\n' (idLine ++ '\r' :: '\n' :: (body ++ [t.toChar])) =
      some (idLine, body ++ [t.toChar]) :=
    splitPairOnce_append '\r' '\n' (by decide) idLine _ (hasCRLF_none hi)
  have hsidsp : splitCharOnce ' ' hl = some (sid, dt) :=
    splitCharOnce_append ' ' sid dt hsid
  have e1 : splitCharAll ' ' status = [status] := splitCharAll_no_sep ' ' status hst
  have e2 : splitCharAll ' ' (ctag ++ ' ' :: status) = [ctag, status] := by
    rw [splitCharAll_append ' ' ctag status hct, e1]
  have e3 : splitCharAll ' ' (mid ++ ' ' :: (ctag ++ ' ' :: status)) =
      [mid, ctag, status] := by
    rw [splitCharAll_append ' ' mid _ hmid, e2]
  have e4 : splitCharAll ' ' idLine = [['M'], mid, ctag, status] := by
    rw [hidl]
    simp [splitCharAll, e3]
  have hblast : (body ++ [t.toChar]).getLast? = some t.toChar :=
    getLast?_concat_local body t.toChar
  have hhead : idLine.head? = some 'M' := rfl
  simp only [parse_response, htake, hlast, hdrop, hsp1, hsp2, hsidsp, hiso,
    hhead, e4, hblast, ofChar_toChar, hlt, ne_eq]
  simp [dropLast_concat_local]

theorem parse_wf_auto (pad sid dt code atag clauseTxt body : Str)
    (t : Terminator) (hp : pad.length = 3) (hsid : ' ' ∉ sid)
    (hiso : isoDatetimeValid dt = true)
    (hh : hasCRLF (sid ++ ' ' :: dt) = false)
    (hi : hasCRLF (code ++ ' ' :: (atag ++ ' ' :: clauseTxt)) = false)
    (hcode : ' ' ∉ code) (hatag : ' ' ∉ atag)
    (hcM : code.head? ≠ some 'M')
    (hT : t ≠ Terminator.ACK) :
    parse_response (mkMsgBuf pad (sid ++ ' ' :: dt)
        (code ++ ' ' :: (atag ++ ' ' :: clauseTxt)) body t) =
      .autonomous ⟨⟨sid, dt⟩, ⟨code, atag, splitCharAll ' ' clauseTxt⟩, body, t⟩ := by
  set idLine : Str := code ++ ' ' :: (atag ++ ' ' :: clauseTxt) with hidl
  set hl : Str := sid ++ ' ' :: dt with hhl
  have htake : (mkMsgBuf pad hl idLine body t).take 3 = crlfLf := rfl
  have hlen : (crlfLf ++ pad).length = 6 := by simp [crlfLf, hp]
  have hdrop : (mkMsgBuf pad hl idLine body t).drop 6 =
      hl ++ '\r' :: '\n' :: (idLine ++ '\r' :: '\n' :: (body ++ [t.toChar])) := by
    unfold mkMsgBuf
    rw [← List.append_assoc]
    exact drop_len_append _ _ _ hlen
  have hlast : (mkMsgBuf pad hl idLine body t).getLast? = some t.toChar := by
    unfold mkMsgBuf
    exact getLast?_append_of crlfLf _ _ (getLast?_append_of pad _ _
      (getLast?_append_of hl _ _ (getLast?_append_of ['\r', '\n'] _ _
        (getLast?_append_of idLine _ _ (getLast?_append_of ['\r', '\n'] _ _
          (getLast?_concat_local body t.toChar))))))
  have hlt := toChar_ne_ack hT
  have hsp1 : splitPairOnce '\r' '\n'
      (hl ++ '\r' :: '\n' :: (idLine ++ '\r' :: '\n' :: (body ++ [t.toChar]))) =
      some (hl, idLine ++ '\r' :: '\n' :: (body ++ [t.toChar])) :=
    splitPairOnce_append '\r' '\n' (by decide) hl _ (hasCRLF_none hh)
  have hsp2 : splitPairOnce '\r' '\n' (idLine ++ '\r' :: '\n' :: (body ++ [t.toChar])) =
      some (idLine, body ++ [t.toChar]) :=
    splitPairOnce_append '\r' '\n' (by decide) idLine _ (hasCRLF_none hi)
  have hsidsp : splitCharOnce ' ' hl = some (sid, dt) :=
    splitCharOnce_append ' ' sid dt hsid
  have hisp1 : splitCharOnce ' ' idLine = some (code, atag ++ ' ' :: clauseTxt) :=
    splitCharOnce_append ' ' code _ hcode
  have hisp2 : splitCharOnce ' ' (atag ++ ' ' :: clauseTxt) = some (atag, clauseTxt) :=
    splitCharOnce_append ' ' atag _ hatag
  have hid0 : idLine.head? = some (code.headD ' ') := by
    rw [hidl]; cases code <;> rfl
  have hid0M : ¬(code.headD ' ' = 'M') := by
    cases code with
    | nil => decide
    | cons c cs =>
      simp only [List.head?_cons, ne_eq] at hcM
      simpa using hcM
  have hblast : (body ++ [t.toChar]).getLast? = some t.toChar :=
    getLast?_concat_local body t.toChar
  simp only [parse_response, htake, hlast, hdrop, hsp1, hsp2, hsidsp, hiso,
    hid0, hid0M, hisp1, hisp2, hblast, ofChar_toChar, hlt, ne_eq]
  simp [dropLast_concat_local]

theorem parse_no_preamble (text : Str) (h : text.take 3 ≠ crlfLf) :
    parse_response text = .noMessage := by
  unfold parse_response
  rw [if_pos h]

/-- C1: for every input buffer, the classifier `parse_response` returns the
correct message kind for each of the three well-formed message shapes — an
`AcknowledgmentMessage` for a well-formed acknowledgment buffer, a `Response`
for a well-formed synchronous response buffer, an `AutonomousMessage` for a
well-formed autonomous buffer — and returns no message (`None`, not an
error) for every buffer that does not start with `"\r\n\n"`.  Well-formed
shapes are the ones the source accepts: a six-character preamble (the
control sequence plus three padding characters), and for the synchronous
response an identifier line of four space-separated fields whose second is
ignored. -/
theorem claim1_classifier_completeness :
    (∀ pad code ctag : Str, pad.length = 3 → ' ' ∉ code →
      parse_response (mkAckBuf pad code ctag) =
        .ack ⟨code, ctag, Terminator.ACK⟩) ∧
    (∀ pad sid dt mid ctag status body : Str, ∀ t : Terminator,
      pad.length = 3 → ' ' ∉ sid → isoDatetimeValid dt = true →
      hasCRLF (sid ++ ' ' :: dt) = false →
      hasCRLF ('M' :: ' ' :: (mid ++ ' ' :: (ctag ++ ' ' :: status))) = false →
      ' ' ∉ mid → ' ' ∉ ctag → ' ' ∉ status → t ≠ Terminator.ACK →
      parse_response (mkMsgBuf pad (sid ++ ' ' :: dt)
          ('M' :: ' ' :: (mid ++ ' ' :: (ctag ++ ' ' :: status))) body t) =
        .response ⟨⟨sid, dt⟩, ⟨['M'], ctag, status⟩, body, t⟩) ∧
    (∀ pad sid dt code atag clauseTxt body : Str, ∀ t : Terminator,
      pad.length = 3 → ' ' ∉ sid → isoDatetimeValid dt = true →
      hasCRLF (sid ++ ' ' :: dt) = false →
      hasCRLF (code ++ ' ' :: (atag ++ ' ' :: clauseTxt)) = false →
      ' ' ∉ code → ' ' ∉ atag → code.head? ≠ some 'M' → t ≠ Terminator.ACK →
      parse_response (mkMsgBuf pad (sid ++ ' ' :: dt)
          (code ++ ' ' :: (atag ++ ' ' :: clauseTxt)) body t) =
        .autonomous ⟨⟨sid, dt⟩, ⟨code, atag, splitCharAll ' ' clauseTxt⟩,
          body, t⟩) ∧
    (∀ text : Str, text.take 3 ≠ crlfLf → parse_response text = .noMessage) :=
  ⟨parse_wf_ack, parse_wf_response, parse_wf_auto, parse_no_preamble⟩

/-- Witness for C1: concrete instances of all four classifier cases. -/
theorem claim1_classifier_completeness_witness :
    parse_response (mkAckBuf ("   ".toList) ("OK".toList) ("CTAG".toList)) =
      .ack ⟨"OK".toList, "CTAG".toList, Terminator.ACK⟩ ∧
    parse_response (mkMsgBuf ("   ".toList)
        ("NE01".toList ++ ' ' :: "2024-05-06 07:08:09".toList)
        ('M' :: ' ' :: ([] ++ ' ' :: ("CTAG".toList ++ ' ' :: "COMPLD".toList)))
        ("ok".toList) Terminator.STOP) =
      .response ⟨⟨"NE01".toList, "2024-05-06 07:08:09".toList⟩,
        ⟨['M'], "CTAG".toList, "COMPLD".toList⟩, "ok".toList,
        Terminator.STOP⟩ ∧
    parse_response (mkMsgBuf ("   ".toList)
        ("NE01".toList ++ ' ' :: "2024-05-06 07:08:09".toList)
        ("REPT".toList ++ ' ' :: ("17".toList ++ ' ' :: "ALM EQPT".toList))
        ("ok".toList) Terminator.STOP) =
      .autonomous ⟨⟨"NE01".toList, "2024-05-06 07:08:09".toList⟩,
        ⟨"REPT".toList, "17".toList, splitCharAll ' ' ("ALM EQPT".toList)⟩,
        "ok".toList, Terminator.STOP⟩ ∧
    parse_response ("LOGIN".toList) = ParseResult.noMessage :=
  ⟨claim1_classifier_completeness.1 _ _ _ (by decide) (by decide),
   claim1_classifier_completeness.2.1 _ _ _ _ _ _ _ _ (by decide) (by decide)
     (by decide) (by decide) (by decide) (by decide) (by decide) (by decide)
     (by decide),
   claim1_classifier_completeness.2.2.1 _ _ _ _ _ _ _ _ (by decide) (by decide)
     (by decide) (by decide) (by decide) (by decide) (by decide) (by decide)
     (by decide),
   claim1_classifier_completeness.2.2.2 _ (by decide)⟩

/-- C2 counterexample: the spec's sample acknowledgment buffer carries six
spaces of padding, but `parse_response` strips only six characters in total
(the three control characters plus three padding characters), so the
remaining three spaces make the split return an empty code and a ctag of
`"  OK CTAG"` — not code `"OK"` with ctag `"CTAG"`. -/
theorem claim2_sample_ack_counterexample :
    parse_response ("\r\n\n      OK CTAG<".toList) =
      .ack ⟨[], "  OK CTAG".toList, Terminator.ACK⟩ ∧
    parse_response ("\r\n\n      OK CTAG<".toList) ≠
      .ack ⟨"OK".toList, "CTAG".toList, Terminator.ACK⟩ := by
  constructor <;> decide

/-- C2 amended: feeding the sample acknowledgment buffer with a
three-character padding (a six-character preamble in total),
`"\r\n\n   OK CTAG<"`, through the classifier yields an
`AcknowledgmentMessage` whose code is `"OK"`, whose ctag is `"CTAG"`, and
whose terminator is ACK. -/
theorem claim2_sample_ack_amended :
    parse_response ("\r\n\n   OK CTAG<".toList) =
      .ack ⟨"OK".toList, "CTAG".toList, Terminator.ACK⟩ := by decide

/-- C4 counterexample: a response buffer whose identifier line is
`"M CTAG COMPLD"` — exactly the claimed shape `M SPACE CTAG SPACE
STATUSCODE` — does not produce a `Response`: the four-way unpacking of
`identifier_txt.split(' ')` raises `ValueError` on the three
space-separated fields. -/
theorem claim4_identifier_counterexample :
    parse_response
        ("\r\n\n   NE01 2024-05-06 07:08:09\r\nM CTAG COMPLD\r\nok;".toList) =
      ParseResult.err ∧
    (parse_response
        ("\r\n\n   NE01 2024-05-06 07:08:09\r\nM CTAG COMPLD\r\nok;".toList)).isResponseMsg
      = false := by
  constructor <;> decide

/-- C4 amended: an identifier line starting with `M` must consist of four
space-separated fields `M SPACE SPACE CTAG SPACE STATUSCODE` (the second
field, between the two spaces, is ignored); the classifier then produces a
`Response` whose identifier carries that ctag and status code.  An
identifier line not starting with `M`, of shape
`CODE SPACE ATAG SPACE CLAUSE...`, is parsed into an `AutonomousMessage`
whose identifier holds the code, the atag, and the remaining
space-separated tokens as the clause list. -/
theorem claim4_identifier_amended :
    (∀ pad sid dt mid ctag status body : Str, ∀ t : Terminator,
      pad.length = 3 → ' ' ∉ sid → isoDatetimeValid dt = true →
      hasCRLF (sid ++ ' ' :: dt) = false →
      hasCRLF ('M' :: ' ' :: (mid ++ ' ' :: (ctag ++ ' ' :: status))) = false →
      ' ' ∉ mid → ' ' ∉ ctag → ' ' ∉ status → t ≠ Terminator.ACK →
      parse_response (mkMsgBuf pad (sid ++ ' ' :: dt)
          ('M' :: ' ' :: (mid ++ ' ' :: (ctag ++ ' ' :: status))) body t) =
        .response ⟨⟨sid, dt⟩, ⟨['M'], ctag, status⟩, body, t⟩) ∧
    (∀ pad sid dt code atag body : Str, ∀ tokens : List Str, ∀ t : Terminator,
      pad.length = 3 → ' ' ∉ sid → isoDatetimeValid dt = true →
      hasCRLF (sid ++ ' ' :: dt) = false →
      hasCRLF (code ++ ' ' :: (atag ++ ' ' :: joinWith [' '] tokens)) = false →
      ' ' ∉ code → ' ' ∉ atag → code.head? ≠ some 'M' →
      tokens ≠ [] → (∀ tok ∈ tokens, ' ' ∉ tok) → t ≠ Terminator.ACK →
      parse_response (mkMsgBuf pad (sid ++ ' ' :: dt)
          (code ++ ' ' :: (atag ++ ' ' :: joinWith [' '] tokens)) body t) =
        .autonomous ⟨⟨sid, dt⟩, ⟨code, atag, tokens⟩, body, t⟩) := by
  refine ⟨parse_wf_response, ?_⟩
  intro pad sid dt code atag body tokens t hp hsid hiso hh hi hcode hatag hcM
    htne htok hT
  rw [parse_wf_auto pad sid dt code atag (joinWith [' '] tokens) body t hp hsid
    hiso hh hi hcode hatag hcM hT,
    splitCharAll_joinWith ' ' tokens htne htok]

/-- Witness for C4's amended theorem: both identifier-line shapes at
concrete inputs. -/
theorem claim4_identifier_amended_witness :
    parse_response (mkMsgBuf ("   ".toList)
        ("NE01".toList ++ ' ' :: "2024-05-06 07:08:09".toList)
        ('M' :: ' ' :: ([] ++ ' ' :: ("C77".toList ++ ' ' :: "DENY".toList)))
        ("no".toList) Terminator.CONTINUE) =
      .response ⟨⟨"NE01".toList, "2024-05-06 07:08:09".toList⟩,
        ⟨['M'], "C77".toList, "DENY".toList⟩, "no".toList,
        Terminator.CONTINUE⟩ ∧
    parse_response (mkMsgBuf ("   ".toList)
        ("NE01".toList ++ ' ' :: "2024-05-06 07:08:09".toList)
        ("A".toList ++ ' ' :: ("9".toList ++ ' ' ::
          joinWith [' '] ["REPT".toList, "ALM".toList]))
        ("hot".toList) Terminator.STOP) =
      .autonomous ⟨⟨"NE01".toList, "2024-05-06 07:08:09".toList⟩,
        ⟨"A".toList, "9".toList, ["REPT".toList, "ALM".toList]⟩,
        "hot".toList, Terminator.STOP⟩ :=
  ⟨claim4_identifier_amended.1 _ _ _ _ _ _ _ _ (by decide) (by decide)
     (by decide) (by decide) (by decide) (by decide) (by decide) (by decide)
     (by decide),
   claim4_identifier_amended.2 _ _ _ _ _ _ _ _ (by decide) (by decide)
     (by decide) (by decide) (by decide) (by decide) (by decide) (by decide)
     (by decide) (by decide) (by decide)⟩

/-! Vendor response-table parser (`fiberhome.objects.Response.parse_datatable`). -/

/-- A parsed table row: the ordered field map built by
`dict(zip(columns, cells))` and carried by the dynamically created
`Row` record (one immutable record per data line). -/
abbrev Row := List (Str × Str)

/-- `fiberhome.objects.PacketTable`. -/
structure PacketTable where
  title : Str
  columns : List Str
  rows : List Row
deriving DecidableEq, Repr

/-- `fiberhome.objects.PacketData`. -/
structure PacketData where
  blocks : Int
  number : Int
  records : Int
  table : PacketTable
deriving DecidableEq, Repr

/-- Modelled from the CPython identifier test applied to every `__slots__`
entry when `parse_datatable` creates the per-parse row class with
`type('Row', (ImmutableRecord,), {'__slots__': data.table.columns})`:
a slot name must satisfy `str.isidentifier()` or the `type()` call raises
`TypeError("__slots__ must be identifiers")`.  Identifiers are modelled
over ASCII — a leading letter or underscore followed by letters, digits
or underscores (the interpreter also accepts non-ASCII identifier
characters, which do not occur in TL1 tables). -/
def pyIsIdentifier (s : Str) : Bool :=
  match s with
  | [] => false
  | c :: cs => (c.isAlpha ∨ c = '_') ∧ cs.all (fun d => d.isAlphanum ∨ d = '_')

/-- A column name acceptable to the `type()` call: a valid identifier that
is not `__slots__` itself (a slot named `__slots__` collides with the
class-dict key and makes `type()` raise `ValueError`). -/
def slotNameOK (s : Str) : Bool :=
  pyIsIdentifier s ∧ s ≠ "__slots__".toList

/-- Modelled from CPython name mangling, which `type()` applies to each
slot name: a name with two leading underscores and without two trailing
ones becomes `_Row<name>`, so the later `setattr(self, name, value)` in
`ImmutableRecord.__init__` finds no descriptor under the written name and
raises `AttributeError`. -/
def mangledName (s : Str) : Bool :=
  s.take 2 = ['_', '_'] ∧ ¬(s.reverse.take 2 = ['_', '_'])

/-- One `rower(**dict(zip(data.table.columns, lines[i].split('\t'))))`
construction: every key is one of the columns as written, so
`ImmutableRecord.__init__`'s membership check passes, and the `setattr`
succeeds exactly when the slot name was not mangled away; `none` models
the `AttributeError` on a mangled name. -/
def buildRow (cols cells : List Str) : Option Row :=
  if (pyDict (cols.zip cells)).any (fun kv => mangledName kv.1) then none
  else some (pyDict (cols.zip cells))

/-- The row loop `for i in range(data.records)` of `parse_datatable`: each
iteration tab-splits line `i`, zips it against the column headers and builds
the row record through `dict`; `none` models the `IndexError` raised when
`lines[i]` runs past the end, or a failing row construction. -/
def readRows (cols : List Str) : Nat → List Str → Option (List Row)
  | 0, _ => some []
  | _ + 1, [] => none
  | k + 1, l :: ls =>
    match buildRow cols (splitCharAll '\t' l), readRows cols k ls with
    | some row, some rs => some (row :: rs)
    | _, _ => none

/-- `fiberhome.objects.Response.parse_datatable`, translated line by line;
`none` models any escaping exception (`ValueError` from unpacking or from
`int`, `IndexError` from `split('=')[1]` or from indexing past the end of
the line list). -/
def parse_datatable (text : Str) : Option PacketData :=
  -- lines = text.split('\r\n'); params, lines = lines[:3], lines[4:]
  let lines := splitPairAll '\r' '\n' text
  let rest := lines.drop 4
  -- blocks, number, records = (item.strip().split('=')[1] for item in params)
  match (lines.take 3).map pyStrip with
  | [p0, p1, p2] =>
    match (splitCharAll '=' p0)[1]?, (splitCharAll '=' p1)[1]?,
        (splitCharAll '=' p2)[1]? with
    | some bs, some ns, some rs =>
      -- data = PacketData(int(blocks), int(number), int(records))
      match pyInt bs, pyInt ns, pyInt rs with
      | some b, some n, some r =>
        -- data.table.title, lines = lines[0], lines[2:]
        match rest with
        | [] => none
        | title :: rest1 =>
          -- data.table.columns, lines = lines[0].split('\t'), lines[1:]
          match rest1.drop 1 with
          | [] => none
          | hdr :: dataLines =>
            -- rower = type('Row', (ImmutableRecord,),
            --              {'__slots__': data.table.columns}):
            -- raises unless every column name is an acceptable slot name
            if (splitCharAll '\t' hdr).all slotNameOK then
              match readRows (splitCharAll '\t' hdr) r.toNat dataLines with
              | none => none
              | some rows =>
                some ⟨b, n, r, ⟨title, splitCharAll '\t' hdr, rows⟩⟩
            else none
      | _, _, _ => none
    | _, _, _ => none
  | _ => none

/-- The response body assembled from its individual lines: three metadata
lines, a discarded line, the title, a discarded line, the header row, then
the data lines. -/
def mkTableBody (m1 m2 m3 skipA title skipB hdr : Str)
    (dataLines : List Str) : Str :=
  joinWith ['\r', '\n'] ([m1, m2, m3, skipA, title, skipB, hdr] ++ dataLines)

theorem readRows_exact (cols : List Str) :
    ∀ ls : List Str,
      (∀ l ∈ ls, buildRow cols (splitCharAll '\t' l) =
        some (pyDict (cols.zip (splitCharAll '\t' l)))) →
      readRows cols ls.length ls =
        some (ls.map (fun l => pyDict (cols.zip (splitCharAll '\t' l))))
  | [], _ => rfl
  | l :: ls, h => by
    have ih := readRows_exact cols ls (fun x hx => h x (List.mem_cons_of_mem _ hx))
    simp [readRows, h l (by simp), ih]

theorem readRows_short (cols : List Str) :
    ∀ (k : Nat) (ls : List Str), ls.length < k → readRows cols k ls = none
  | 0, _, h => absurd h (by simp)
  | _ + 1, [], _ => rfl
  | k + 1, l :: ls, h => by
    have ih := readRows_short cols k ls (by simpa using h)
    cases hb : buildRow cols (splitCharAll '\t' l) <;> simp [readRows, hb, ih]

theorem upsert_not_mem {α β : Type} [DecidableEq α] :
    ∀ (d : List (α × β)) (k : α) (v : β), k ∉ d.map Prod.fst →
      upsert d k v = d ++ [(k, v)]
  | [], _, _, _ => rfl
  | (k0, v0) :: rest, k, v, h => by
    have hk : ¬(k0 = k) := by
      intro he
      exact h (by simp [he])
    have ih := upsert_not_mem rest k v (fun hm => h (by simp [hm]))
    simp [upsert, hk, ih]

theorem foldl_upsert_append {α β : Type} [DecidableEq α] :
    ∀ (ps acc : List (α × β)),
      (∀ p ∈ ps, p.1 ∉ acc.map Prod.fst) → (ps.map Prod.fst).Nodup →
      ps.foldl (fun d kv => upsert d kv.1 kv.2) acc = acc ++ ps
  | [], acc, _, _ => by simp
  | (k, v) :: ps, acc, hdisj, hnd => by
    have hk : k ∉ acc.map Prod.fst := hdisj (k, v) (by simp)
    have hnd1 : (ps.map Prod.fst).Nodup := (List.nodup_cons.mp hnd).2
    have hkps : k ∉ ps.map Prod.fst := (List.nodup_cons.mp hnd).1
    have hdisj1 : ∀ p ∈ ps, p.1 ∉ (acc ++ [(k, v)]).map Prod.fst := by
      intro p hp
      simp only [List.map_append, List.mem_append]
      rintro (hmem | hmem)
      · exact hdisj p (List.mem_cons_of_mem _ hp) hmem
      · simp only [List.map_cons, List.map_nil, List.mem_singleton] at hmem
        exact hkps (hmem ▸ List.mem_map_of_mem Prod.fst hp)
    have ih := foldl_upsert_append ps (acc ++ [(k, v)]) hdisj1 hnd1
    simp only [List.foldl_cons, upsert_not_mem acc k v hk, ih,
      List.append_assoc, List.singleton_append]

theorem pyDict_eq_self {α β : Type} [DecidableEq α] (ps : List (α × β))
    (h : (ps.map Prod.fst).Nodup) : pyDict ps = ps := by
  unfold pyDict
  simpa using foldl_upsert_append ps [] (by simp) h

theorem buildRow_clean (cols cells : List Str) (hnd : cols.Nodup)
    (hlen : cells.length = cols.length)
    (hnm : ∀ c ∈ cols, mangledName c = false) :
    buildRow cols cells = some (cols.zip cells) := by
  have hkeys : (cols.zip cells).map Prod.fst = cols :=
    List.map_fst_zip cols cells (le_of_eq hlen.symm)
  have hz : pyDict (cols.zip cells) = cols.zip cells :=
    pyDict_eq_self _ (by rw [hkeys]; exact hnd)
  unfold buildRow
  rw [hz]
  have hany : (cols.zip cells).any (fun kv => mangledName kv.1) = false := by
    rw [List.any_eq_false]
    intro kv hkv
    obtain ⟨k, v⟩ := kv
    have hkc : k ∈ cols := (List.of_mem_zip hkv).1
    simp [hnm k hkc]
  rw [hany]
  simp

theorem map_rows_eq (cols : List Str) :
    ∀ cellRows : List (List Str),
      (∀ cs ∈ cellRows,
        pyDict (cols.zip (splitCharAll '\t' (joinWith ['\t'] cs))) =
          cols.zip cs) →
      List.map (fun l => pyDict (cols.zip (splitCharAll '\t' l)))
          (List.map (joinWith ['\t']) cellRows) =
        List.map (fun cs => cols.zip cs) cellRows
  | [], _ => rfl
  | cs :: rest, h => by
    simp only [List.map_cons]
    rw [h cs (by simp),
      map_rows_eq cols rest (fun x hx => h x (List.mem_cons_of_mem _ hx))]

theorem parse_datatable_body (m1 m2 m3 skipA title skipB hdr : Str)
    (dataLines : List Str) (bs ns rs : Str) (b n r : Int)
    (h1 : hasCRLF m1 = false) (h2 : hasCRLF m2 = false)
    (h3 : hasCRLF m3 = false) (h4 : hasCRLF skipA = false)
    (h5 : hasCRLF title = false) (h6 : hasCRLF skipB = false)
    (h7 : hasCRLF hdr = false)
    (hdl : ∀ l ∈ dataLines, hasCRLF l = false)
    (hm1 : (splitCharAll '=' (pyStrip m1))[1]? = some bs)
    (hm2 : (splitCharAll '=' (pyStrip m2))[1]? = some ns)
    (hm3 : (splitCharAll '=' (pyStrip m3))[1]? = some rs)
    (hb : pyInt bs = some b) (hn : pyInt ns = some n)
    (hr : pyInt rs = some r) :
    parse_datatable (mkTableBody m1 m2 m3 skipA title skipB hdr dataLines) =
      if (splitCharAll '\t' hdr).all slotNameOK then
        match readRows (splitCharAll '\t' hdr) r.toNat dataLines with
        | none => none
        | some rows => some ⟨b, n, r, ⟨title, splitCharAll '\t' hdr, rows⟩⟩
      else none := by
  have hlines : splitPairAll '\r' '\n'
      (mkTableBody m1 m2 m3 skipA title skipB hdr dataLines) =
      [m1, m2, m3, skipA, title, skipB, hdr] ++ dataLines := by
    apply splitPairAll_joinWith '\r' '\n' (by decide)
    · simp
    · intro l hl
      simp only [List.mem_append, List.mem_cons, List.not_mem_nil,
        or_false] at hl
      apply hasCRLF_none
      rcases hl with h | h
      · rcases h with h | h | h | h | h | h | h <;> subst h <;> assumption
      · exact hdl l h
  simp only [parse_datatable, hlines, List.cons_append, List.take_succ_cons,
    List.take_zero, List.drop_succ_cons, List.drop_zero, List.map_cons,
    List.map_nil]
  rw [hm1, hm2, hm3]
  simp only [hb, hn, hr, List.nil_append]

/-- C5 counterexample: bodies laid out as the claim describes — metadata,
a separator, the title, then a tab-separated header row `"A\tB"` followed
by a horizontal-rule line, then the two data rows — are not parsed with
the fields bound to the header names `A` and `B`.  The parser discards the
line after the title (here the header row) and takes the following line
(the rule) as the column row: with an underscore rule `"____"` (a valid
identifier) it returns two one-field records bound to `"____"`, and with a
dash rule `"----"` the dynamic `Row` class creation raises `TypeError`
(`__slots__` entries must be identifiers), so nothing is returned at
all. -/
theorem claim5_table_counterexample :
    parse_datatable
        (("   total_blocks=1\r\n   block_number=1\r\n   block_records=2" ++
          "\r\n----\r\nTITLE\r\nA\tB\r\n____\r\nv1\tv2\r\nw1\tw2").toList) =
      some ⟨1, 1, 2, ⟨"TITLE".toList, ["____".toList],
        [[("____".toList, "v1".toList)], [("____".toList, "w1".toList)]]⟩⟩ ∧
    (parse_datatable
        (("   total_blocks=1\r\n   block_number=1\r\n   block_records=2" ++
          "\r\n----\r\nTITLE\r\nA\tB\r\n____\r\nv1\tv2\r\nw1\tw2").toList)).map
      (fun d => d.table.columns) ≠ some ["A".toList, "B".toList] ∧
    parse_datatable
        (("   total_blocks=1\r\n   block_number=1\r\n   block_records=2" ++
          "\r\n----\r\nTITLE\r\nA\tB\r\n----\r\nv1\tv2\r\nw1\tw2").toList) =
      none := by
  refine ⟨by decide, by decide, by decide⟩

/-- C5 amended: the line following the title is discarded (the
horizontal rule sits between the title and the header row, not after the
header row).  For a body carrying metadata `records = N`, a title, a
discarded line, and a tab-separated header row of M distinct columns —
each a plain Python identifier other than `__slots__` and not subject to
name mangling (the dynamic `Row` class creation raises otherwise) —
followed by exactly N data lines, the parser returns exactly N row
records, each with M fields whose values are bound positionally to the
header names; and a body claiming `records = N` but containing fewer than
N data lines fails (returns no result) rather than returning a short
(dropped or padded) result. -/
theorem claim5_table_amended :
    (∀ (m1 m2 m3 skipA title skipB : Str) (bs ns rs : Str) (b n r : Int)
        (cols : List Str) (cellRows : List (List Str)),
      hasCRLF m1 = false → hasCRLF m2 = false → hasCRLF m3 = false →
      hasCRLF skipA = false → hasCRLF title = false → hasCRLF skipB = false →
      hasCRLF (joinWith ['\t'] cols) = false →
      (∀ cs ∈ cellRows, hasCRLF (joinWith ['\t'] cs) = false) →
      (splitCharAll '=' (pyStrip m1))[1]? = some bs →
      (splitCharAll '=' (pyStrip m2))[1]? = some ns →
      (splitCharAll '=' (pyStrip m3))[1]? = some rs →
      pyInt bs = some b → pyInt ns = some n → pyInt rs = some r →
      cols ≠ [] → (∀ c ∈ cols, '\t' ∉ c) → cols.Nodup →
      (∀ c ∈ cols, slotNameOK c = true) →
      (∀ c ∈ cols, mangledName c = false) →
      (∀ cs ∈ cellRows, cs ≠ [] ∧ cs.length = cols.length ∧ ∀ c ∈ cs, '\t' ∉ c) →
      cellRows.length = r.toNat →
      parse_datatable (mkTableBody m1 m2 m3 skipA title skipB
          (joinWith ['\t'] cols) (cellRows.map (joinWith ['\t']))) =
        some ⟨b, n, r, ⟨title, cols, cellRows.map (fun cs => cols.zip cs)⟩⟩) ∧
    (∀ (m1 m2 m3 skipA title skipB hdr : Str) (dataLines : List Str)
        (bs ns rs : Str) (b n r : Int),
      hasCRLF m1 = false → hasCRLF m2 = false → hasCRLF m3 = false →
      hasCRLF skipA = false → hasCRLF title = false → hasCRLF skipB = false →
      hasCRLF hdr = false → (∀ l ∈ dataLines, hasCRLF l = false) →
      (splitCharAll '=' (pyStrip m1))[1]? = some bs →
      (splitCharAll '=' (pyStrip m2))[1]? = some ns →
      (splitCharAll '=' (pyStrip m3))[1]? = some rs →
      pyInt bs = some b → pyInt ns = some n → pyInt rs = some r →
      dataLines.length < r.toNat →
      parse_datatable (mkTableBody m1 m2 m3 skipA title skipB hdr dataLines) =
        none) := by
  constructor
  · intro m1 m2 m3 skipA title skipB bs ns rs b n r cols cellRows
      h1 h2 h3 h4 h5 h6 h7 hdlCRLF hm1 hm2 hm3 hb hn hr
      hcolsne hcolstab hnodup hslot hnm hrows hcount
    have hdl : ∀ l ∈ cellRows.map (joinWith ['\t']), hasCRLF l = false := by
      intro l hl
      rw [List.mem_map] at hl
      obtain ⟨cs, hcs, rfl⟩ := hl
      exact hdlCRLF cs hcs
    rw [parse_datatable_body m1 m2 m3 skipA title skipB _ _ bs ns rs b n r
      h1 h2 h3 h4 h5 h6 h7 hdl hm1 hm2 hm3 hb hn hr]
    rw [splitCharAll_joinWith '\t' cols hcolsne hcolstab]
    have hgate : cols.all slotNameOK = true := by
      rw [List.all_eq_true]
      exact hslot
    rw [if_pos hgate]
    have hbr : ∀ l ∈ cellRows.map (joinWith ['\t']),
        buildRow cols (splitCharAll '\t' l) =
          some (pyDict (cols.zip (splitCharAll '\t' l))) := by
      intro l hl
      rw [List.mem_map] at hl
      obtain ⟨cs, hcs, rfl⟩ := hl
      obtain ⟨hne, hlencs, htabs⟩ := hrows cs hcs
      rw [splitCharAll_joinWith '\t' cs hne htabs,
        pyDict_eq_self _ (by
          rw [List.map_fst_zip cols cs (le_of_eq hlencs.symm)]
          exact hnodup)]
      exact buildRow_clean cols cs hnodup hlencs hnm
    have hlen : (cellRows.map (joinWith ['\t'])).length = r.toNat := by
      simp [hcount]
    rw [← hlen, readRows_exact cols _ hbr]
    have hmaps : ∀ cs ∈ cellRows,
        pyDict (cols.zip (splitCharAll '\t' (joinWith ['\t'] cs))) =
          cols.zip cs := by
      intro cs hcs
      obtain ⟨hne, hlencs, htabs⟩ := hrows cs hcs
      rw [splitCharAll_joinWith '\t' cs hne htabs]
      apply pyDict_eq_self
      rw [List.map_fst_zip cols cs (le_of_eq hlencs.symm)]
      exact hnodup
    rw [map_rows_eq cols cellRows hmaps]
  · intro m1 m2 m3 skipA title skipB hdr dataLines bs ns rs b n r
      h1 h2 h3 h4 h5 h6 h7 hdl hm1 hm2 hm3 hb hn hr hshort
    rw [parse_datatable_body m1 m2 m3 skipA title skipB hdr dataLines
      bs ns rs b n r h1 h2 h3 h4 h5 h6 h7 hdl hm1 hm2 hm3 hb hn hr]
    by_cases hgate : (splitCharAll '\t' hdr).all slotNameOK = true
    · rw [if_pos hgate, readRows_short _ _ _ hshort]
    · rw [if_neg hgate]

/-- Witness for C5's amended theorem: a two-row two-column table is parsed
in full, and the same table with only one data line fails. -/
theorem claim5_table_amended_witness :
    parse_datatable (mkTableBody ("   total_blocks=1".toList)
        ("   block_number=1".toList) ("   block_records=2".toList)
        ("----".toList) ("TITLE".toList) ("----".toList)
        (joinWith ['\t'] ["A".toList, "B".toList])
        ([["v1".toList, "v2".toList], ["w1".toList, "w2".toList]].map
          (joinWith ['\t']))) =
      some ⟨1, 1, 2, ⟨"TITLE".toList, ["A".toList, "B".toList],
        [["v1".toList, "v2".toList], ["w1".toList, "w2".toList]].map
          (fun cs => ["A".toList, "B".toList].zip cs)⟩⟩ ∧
    parse_datatable (mkTableBody ("   total_blocks=1".toList)
        ("   block_number=1".toList) ("   block_records=2".toList)
        ("----".toList) ("TITLE".toList) ("----".toList)
        ("A\tB".toList) (["v1\tv2".toList])) = none :=
  ⟨claim5_table_amended.1 ("   total_blocks=1".toList)
     ("   block_number=1".toList) ("   block_records=2".toList)
     ("----".toList) ("TITLE".toList) ("----".toList)
     ("1".toList) ("1".toList) ("2".toList) 1 1 2
     ["A".toList, "B".toList]
     [["v1".toList, "v2".toList], ["w1".toList, "w2".toList]]
     (by decide) (by decide) (by decide) (by decide) (by decide) (by decide)
     (by decide) (by decide) (by decide) (by decide) (by decide) (by decide)
     (by decide) (by decide) (by decide) (by decide) (by decide) (by decide)
     (by decide) (by decide) (by decide),
   claim5_table_amended.2 ("   total_blocks=1".toList)
     ("   block_number=1".toList) ("   block_records=2".toList)
     ("----".toList) ("TITLE".toList) ("----".toList) ("A\tB".toList)
     ["v1\tv2".toList] ("1".toList) ("1".toList) ("2".toList) 1 1 2
     (by decide) (by decide) (by decide) (by decide) (by decide) (by decide)
     (by decide) (by decide) (by decide) (by decide) (by decide) (by decide)
     (by decide) (by decide) (by decide)⟩

/-! Command rendering: `tl1.base.Command.__str__` as specialized by
`fiberhome.commands.FiberhomeCommand._build` for the `Login` command. -/

/-- `tl1.base.SlotsValues.parsed`: joins the truthy (non-empty) slot values
with the separator; for `CommandCode` the slots are `(verb, mod1, mod2)`
and the separator is `'-'`. -/
def slotsParsed (sep : Char) (vals : List Str) : Str :=
  joinWith [sep] (vals.filter (fun v => v ≠ []))

/-- `tl1.base.StagingBlock.__str__`: `tid:aid:ctag:gblock`, all four
positions always present.  After `_build`, `aid` holds the rendering of
`ParamBlock(**self.access)`. -/
def stagingStr (tid aid ctag gblock : Str) : Str :=
  tid ++ ':' :: (aid ++ ':' :: (ctag ++ ':' :: gblock))

/-- `tl1.primitives.DataBlock.__str__`: the slot parameters as
`key=value` pairs, collected through `dict` by `_parsed()` and joined with
commas.  Each pair is `Parameter.tuple()`, i.e. the parameter key and the
`str()` of its value. -/
def dataBlockStr (pairs : List (Str × Str)) : Str :=
  joinWith [','] ((pyDict pairs).map (fun kv => kv.1 ++ '=' :: kv.2))

/-- `tl1.base.Command.__str__`: command code, staging block and payload
joined with `':'` and terminated by `';'`. -/
def commandStr (code staging payload : Str) : Str :=
  code ++ ':' :: (staging ++ ':' :: (payload ++ [';']))

/-- The slot-to-parameter map of `fiberhome.commands.Login.body`: slot
`username` holds `Parameter('UN', String(username))` and slot `password`
holds `Parameter('PWD', String(password))`; the `String` wrapper renders
verbatim. -/
def loginBodyParam (username password : Str) (slot : Str) : Option (Str × Str) :=
  if slot = "username".toList then some ("UN".toList, username)
  else if slot = "password".toList then some ("PWD".toList, password)
  else none

/-- Rendering of `str(Login(username, password))`.  `_build` assigns
`ParamBlock(**self.access)` (here empty, rendering `""`) to the staging
block's `aid` and `ParamBlock(**self.body)` to the payload.
`ParamBlock.__new__` rebuilds the instance `__slots__` as
`tuple(set(kwargs.keys()) | set(()))`, so the order in which the two slot
names appear is whatever the unordered set yields; that enumeration is
passed in as `slotOrder`. -/
def loginStr (slotOrder : List Str) (username password : Str) : Str :=
  commandStr
    (slotsParsed '-' ["LOGIN".toList, [], []])
    (stagingStr [] [] ("CTAG".toList) [])
    (dataBlockStr (slotOrder.filterMap (loginBodyParam username password)))

/-- C3 counterexample: under both possible slot enumerations,
`Login("admin", "secret")` does not render to the claimed wire string
`LOGIN::::CTAG::UN=admin,PWD=secret;` — the staging block contributes only
`::CTAG:` between the two joining colons, giving three colons before
`CTAG`, not four. -/
theorem claim3_login_render_counterexample :
    loginStr ["username".toList, "password".toList]
        ("admin".toList) ("secret".toList) ≠
      "LOGIN::::CTAG::UN=admin,PWD=secret;".toList ∧
    loginStr ["password".toList, "username".toList]
        ("admin".toList) ("secret".toList) ≠
      "LOGIN::::CTAG::UN=admin,PWD=secret;".toList := by
  constructor <;> decide

/-- C3 amended: `Login(username="admin", password="secret")` renders to
`LOGIN:::CTAG::<params>;` — the command code, the four staging fields
(tid, aid, ctag, gblock, of which only ctag is non-empty) and the
comma-joined parameter list joined by `':'` and terminated by `';'`,
giving three colons before `CTAG` and two after — where `<params>` is
`UN=admin,PWD=secret` or `PWD=secret,UN=admin` according to the order in
which the unordered slot set is enumerated. -/
theorem claim3_login_render_amended :
    loginStr ["username".toList, "password".toList]
        ("admin".toList) ("secret".toList) =
      "LOGIN:::CTAG::UN=admin,PWD=secret;".toList ∧
    loginStr ["password".toList, "username".toList]
        ("admin".toList) ("secret".toList) =
      "LOGIN:::CTAG::PWD=secret,UN=admin;".toList := by
  constructor <;> decide

/-! Session transport and client orchestrator state models. -/

/-- Exception classes distinguished by the claims. -/
inductive PyKind
  | eofError
  | timeoutError
deriving DecidableEq, Repr

/-- Result of `Session.get_response`: either the data `get_content()`
returns, or a raised exception with its class and message. -/
inductive GetRespResult
  | content (s : Str)
  | raised (kind : PyKind) (msg : Str)
deriving DecidableEq, Repr

/-- `tl1.session.Session.get_response`.  The wall-clock busy-wait
`while (end - start) < timeout` is modelled by the finite list of
`sock_avail()` poll results observed before the clock difference reaches
the timeout; `content` is the data `get_content()` would return on a poll
that reports available data. -/
def get_response (polls : List Bool) (content : Str) : GetRespResult :=
  match polls with
  | [] => .raised .eofError ("Didnt found any response".toList)
  | avail :: rest =>
    if avail then .content content else get_response rest content

/-- C7 counterexample: when no poll ever reports available data,
`get_response` raises `EOFError` with message
`"Didnt found any response"` — not `TimeoutError` with message
`"no response"` as claimed. -/
theorem claim7_timeout_counterexample :
    get_response [false, false, false] [] =
      .raised PyKind.eofError ("Didnt found any response".toList) ∧
    get_response [false, false, false] [] ≠
      .raised PyKind.timeoutError ("no response".toList) := by
  constructor <;> decide

/-- C7 amended: when the transport never reports available data within the
window, `get_response(timeout)` fails on expiry of the timeout by raising
`EOFError` (message `"Didnt found any response"`) — not by returning a
value, and not `TimeoutError("no response")`. -/
theorem claim7_timeout_amended (polls : List Bool) (content : Str)
    (h : ∀ b ∈ polls, b = false) :
    get_response polls content =
      .raised PyKind.eofError ("Didnt found any response".toList) := by
  induction polls with
  | nil => rfl
  | cons b rest ih =>
    have hb : b = false := h b (by simp)
    rw [get_response, hb]
    simp only [Bool.false_eq_true, if_false]
    exact ih (fun x hx => h x (List.mem_cons_of_mem _ hx))

/-- Witness for C7's amended theorem. -/
theorem claim7_timeout_amended_witness :
    get_response [false, false] ("data".toList) =
      .raised PyKind.eofError ("Didnt found any response".toList) :=
  claim7_timeout_amended [false, false] ("data".toList) (by decide)

/-- State of `tl1.session.Session` relevant to closing: the socket handle
(`some ()` while a socket object is held) and the eof flag. -/
structure SessionSt where
  sock : Option Unit
  eof : Bool
deriving DecidableEq, Repr

/-- `tl1.session.Session.close`: clears the socket handle, sets eof, and
closes the old socket if one was present (an external effect that does not
change the session state further).  It raises nothing in either case. -/
def sessionClose (_s : SessionSt) : SessionSt := { sock := none, eof := true }

/-- State of `tl1.tl1.TL1` relevant to closing: the `connected` flag and
the session attribute (`none` after `close` assigns `None` to it). -/
structure TL1St where
  connected : Bool
  session : Option SessionSt
deriving DecidableEq, Repr

/-- `tl1.tl1.TL1.close`: returns the boolean result and the new state;
`none` models the `AttributeError` raised by `self.session.close()` when
`self.session` is `None`.  Note that a successful close never resets the
`connected` flag. -/
def tl1Close (st : TL1St) : Option (Bool × TL1St) :=
  if st.connected then
    match st.session with
    | none => none
    | some _ => some (true, { connected := st.connected, session := none })
  else some (false, st)

/-- C6: `Session.close` is idempotent, but `TL1.close` is not — on a live
client the first close returns `True` while leaving `connected` set, so a
second consecutive close finds `session = None` with `connected` still
`True` and raises `AttributeError` instead of returning `False`. -/
theorem claim6_close_code_bug :
    (∀ s : SessionSt, sessionClose (sessionClose s) = sessionClose s) ∧
    tl1Close ⟨true, some ⟨some (), false⟩⟩ = some (true, ⟨true, none⟩) ∧
    tl1Close ⟨true, none⟩ = none :=
  ⟨fun _ => rfl, by decide, by decide⟩

/-! Wire primitive types (`tl1.tl1types`). -/

/-- Modelled from the Python standard library `ipaddress.IPv4Address`
string parser invoked by `tl1.tl1types.IPv4Address._validate`: an octet is
one to three decimal digits, with no leading zero unless it is exactly
`"0"`, and value at most 255. -/
def validOctet (s : Str) : Bool :=
  s ≠ [] ∧ s.length ≤ 3 ∧ s.all Char.isDigit ∧
    (s.length = 1 ∨ s.headD '0' ≠ '0') ∧ digitsToNat s ≤ 255

/-- Modelled from `ipaddress.IPv4Address`: a valid address is four
dot-separated valid octets. -/
def ipv4Valid (s : Str) : Bool :=
  match splitCharAll '.' s with
  | [a, b, c, d] => validOctet a ∧ validOctet b ∧ validOctet c ∧ validOctet d
  | _ => false

/-- `tl1.tl1types.IPv4Address.__init__`: every store of `value` runs
through the overridden `__setattr__`, which validates first, so an invalid
value raises before anything is stored.  `.error ()` models the
`ipaddress.AddressValueError` (a `ValueError`) escaping the constructor
is modelled by `none`. -/
def ipv4Init (value : Str) : Option Str :=
  if ipv4Valid value then some value else none

/-- `tl1.tl1types.String.__str__`, inherited by `IPv4Address`: renders the
stored value verbatim. -/
def ipv4Str (value : Str) : Str := value

/-- `tl1.tl1types.IPv4Address.__setattr__`: validates the incoming value
before any mutation (raising `.error ()` and leaving the stored value
unchanged on failure), then stores it only when the attribute assigned is
`value` (assignments to any other name are validated and then dropped);
`none` models the propagated validation error, after which the stored
value is unchanged. -/
def ipv4Setattr (stored : Str) (name : Str) (v : Str) : Option Str :=
  if ipv4Valid v then
    (if name = "value".toList then some v else some stored)
  else none

/-- C8: constructing the IPv4 address type with `"10.0.0.1"` succeeds and
renders `"10.0.0.1"`; constructing it with `"999.1.1.1"` or `"abc"` fails
with the validation error; and every later assignment re-runs validation,
so an assignment of a syntactically invalid dotted-quad raises before the
mutation takes effect (the stored value is unchanged), while a valid
assignment stores the new value. -/
theorem claim8_ipv4_validation :
    (ipv4Init ("10.0.0.1".toList) = some ("10.0.0.1".toList) ∧
      ipv4Str ("10.0.0.1".toList) = "10.0.0.1".toList) ∧
    ipv4Init ("999.1.1.1".toList) = none ∧
    ipv4Init ("abc".toList) = none ∧
    (∀ stored v : Str, ipv4Valid v = false →
      ipv4Setattr stored ("value".toList) v = none) ∧
    (∀ stored v : Str, ipv4Valid v = true →
      ipv4Setattr stored ("value".toList) v = some v) := by
  refine ⟨⟨by decide, rfl⟩, by decide, by decide, ?_, ?_⟩
  · intro stored v h
    simp [ipv4Setattr, h]
  · intro stored v h
    simp [ipv4Setattr, h]

/-- Witness for C8: a failing and a succeeding assignment at concrete
values. -/
theorem claim8_ipv4_validation_witness :
    ipv4Valid ("abc".toList) = false ∧
    ipv4Setattr ("10.0.0.1".toList) ("value".toList) ("abc".toList) = none ∧
    ipv4Valid ("10.0.0.2".toList) = true ∧
    ipv4Setattr ("10.0.0.1".toList) ("value".toList) ("10.0.0.2".toList) =
      some ("10.0.0.2".toList) :=
  ⟨by decide, claim8_ipv4_validation.2.2.2.1 _ _ (by decide), by decide,
   claim8_ipv4_validation.2.2.2.2 _ _ (by decide)⟩

/-! `Session.connect` and the TL1 client constructor. -/

/-- Python truthiness of an optional string argument (`None` and `""` are
falsy). -/
def truthyStr : Option Str → Bool
  | none => false
  | some s => s ≠ []

/-- Python truthiness of an optional integer argument (`None` and `0` are
falsy). -/
def truthyInt : Option Int → Bool
  | none => false
  | some i => i ≠ 0

/-- Full `tl1.session.Session` attribute state. -/
structure SessionFull where
  host : Option Str
  port : Option Int
  timeout : Int
  sock : Option Unit
  eof : Bool
deriving DecidableEq, Repr

/-- Outcome of `tl1.session.Session.connect`: each case carries the state
after the call since the fallback assignments precede any raise. -/
inductive ConnectOutcome
  | ok (st : SessionFull)
  | connError (msg : Str) (st : SessionFull)
  | sockError (st : SessionFull)
deriving DecidableEq, Repr

/-- `tl1.session.Session.connect`.  The `socket.create_connection` call is
an external effect whose outcome is supplied as `connOk` (`some ()` means
a socket was created, `none` that the attempt raised, modelled by
`sockError`).  The `if self.sock is None` re-check after a successful
`create_connection` can never fire and is not modelled. -/
def sessionConnect (st : SessionFull) (host : Option Str) (port : Option Int)
    (timeout : Int) (connOk : Option Unit) : ConnectOutcome :=
  -- self.host = host or self.host; self.port = port or self.port;
  -- self.timeout = timeout or self.timeout
  let st1 : SessionFull :=
    { st with
      host := if truthyStr host then host else st.host
      port := if truthyInt port then port else st.port
      timeout := if timeout ≠ 0 then timeout else st.timeout }
  -- if not all([host, port]): note the check is on the call parameters
  if ¬(truthyStr host = true ∧ truthyInt port = true) then
    .connError ("No host ip and port were set".toList) st1
  else if st1.sock.isSome then
    .connError ("Close the current session before starting a new one".toList) st1
  else
    match connOk with
    | none => .sockError st1
    | some _ => .ok { st1 with sock := some () }

/-- C9: `Session.connect` validates only its call arguments, never the
stored state — calling `connect()` with no host/port arguments (and the
default timeout 5) raises `ConnectionError("No host ip and port were
set")` even when host and port are present on the instance, for any stored
socket state and any would-be connection outcome. -/
theorem claim9_connect_param_check
    (h : Str) (p : Int) (tmo : Int) (sock : Option Unit) (eof : Bool)
    (connOk : Option Unit) :
    sessionConnect ⟨some h, some p, tmo, sock, eof⟩ none none 5 connOk =
      .connError ("No host ip and port were set".toList)
        ⟨some h, some p, 5, sock, eof⟩ := by
  simp [sessionConnect, truthyStr, truthyInt]

/-- Full `tl1.tl1.TL1` attribute state after construction. -/
structure TL1Full where
  session : SessionFull
  connected : Bool
  vendor : Unit
deriving DecidableEq, Repr

/-- Outcome of `tl1.tl1.TL1.__init__`. -/
inductive TL1InitOutcome
  | ok (st : TL1Full)
  | raisedType
  | sessionRaised
deriving DecidableEq, Repr

/-- `tl1.tl1.TL1.__init__`: first `Session(host, port, timeout)` is
constructed (its outcome, which may itself be an exception when a truthy
host and port trigger the eager connect, is supplied as `sessionRes`),
then `connected` is initialised to `False`, then `vendor()` is called —
`raisedType` models the `TypeError` from calling the default `None` —
and finally `connected` is set from the session's socket. -/
def tl1Init (sessionRes : Option SessionFull) (vendor : Option Unit) :
    TL1InitOutcome :=
  match sessionRes with
  | none => .sessionRaised
  | some s =>
    match vendor with
    | none => .raisedType
    | some v => .ok ⟨s, s.sock.isSome, v⟩

/-- C10: the TL1 constructor unconditionally invokes `vendor()`, so with
the default `vendor=None` it raises `TypeError` whenever the session
construction got as far as returning, no client value is ever produced for
any session outcome, and in particular the all-default construction
(`host=None`, `port=0`, so the session does not connect) raises
`TypeError`. -/
theorem claim10_vendor_typeerror :
    (∀ s : SessionFull, tl1Init (some s) none = .raisedType) ∧
    (∀ (res : Option SessionFull) (st : TL1Full), tl1Init res none ≠ .ok st) ∧
    tl1Init (some ⟨none, some 0, 5, none, false⟩) none = .raisedType := by
  refine ⟨fun s => rfl, ?_, rfl⟩
  intro res st
  cases res <;> simp [tl1Init]

end Pylibtl1
